import Mathlib

/-!
Verification model of the artifact-ingestion pipeline in
`src/parsing/crawler/crawler.py` (dsea-telegram-interface).

Python byte strings are modelled as `List Nat` (byte values), the
filesystem as an association list from path strings to file contents, and
the store's writes as an explicit trace of filesystem operations
(`mkdir -p`, write-to-temp, atomic rename), mirroring `_safe_write_atomic`.
Cryptographic digests (`hashlib.sha256`, `hashlib.sha1`) are external
library calls; they are passed in as an explicit `Hashes` record of
functions, so every property proved below holds for an arbitrary
deterministic digest function.  The helpers from `urllib.parse`
(`urlparse`, `urlunparse`, `quote`, `parse_qsl`, `urlencode`) are embedded
faithfully for ASCII inputs below (multi-byte UTF-8 percent sequences
decode byte-per-byte; the repository's URLs are ASCII).
-/

namespace Crawler

/-- UTF-8 encoding of one character (standard 1-4 byte encoding). -/
def utf8EncodeChar (c : Char) : List Nat :=
  let n := c.toNat
  if n < 0x80 then [n]
  else if n < 0x800 then [0xC0 + n / 0x40, 0x80 + n % 0x40]
  else if n < 0x10000 then
    [0xE0 + n / 0x1000, 0x80 + (n / 0x40) % 0x40, 0x80 + n % 0x40]
  else
    [0xF0 + n / 0x40000, 0x80 + (n / 0x1000) % 0x40,
     0x80 + (n / 0x40) % 0x40, 0x80 + n % 0x40]

/-- Model of Python `str.encode("utf-8")`: the UTF-8 bytes of a string. -/
def strBytes (s : String) : List Nat :=
  (s.toList.map utf8EncodeChar).flatten

/-- Byte values of an ASCII string literal. -/
def bytesOfAscii (s : String) : List Nat :=
  s.toList.map Char.toNat

/-- Python `bytes` whitespace (`b" \t\n\r\x0b\x0c"`), used by `bytes.lstrip`. -/
def wsByte (n : Nat) : Bool :=
  n = 32 || n = 9 || n = 10 || n = 13 || n = 11 || n = 12

/-- ASCII lowercasing of one byte, as `bytes.lower` does. -/
def lowerByte (n : Nat) : Nat :=
  if 65 ≤ n ∧ n ≤ 90 then n + 32 else n

/-- Model of Python `sub in l` on byte strings. -/
def containsSub (sub : List Nat) : List Nat → Bool
  | [] => sub.isPrefixOf []
  | c :: r => sub.isPrefixOf (c :: r) || containsSub sub r

/-- Split a character list at the first occurrence of `c`, if any. -/
def splitCharsAtFirst (c : Char) : List Char → Option (List Char × List Char)
  | [] => none
  | x :: r =>
    if x = c then some ([], r)
    else (splitCharsAtFirst c r).map (fun pr => (x :: pr.1, pr.2))

/-- Model of Python `s.split(c, 1)` when `c` occurs (otherwise `none`). -/
def splitFirstOn (s : String) (c : Char) : Option (String × String) :=
  (splitCharsAtFirst c s.toList).map (fun pr => (String.mk pr.1, String.mk pr.2))

/-- Python `str` whitespace as `str.strip()` removes it (ASCII range). -/
def pyWs (c : Char) : Bool :=
  c = ' ' || c = '\t' || c = '\n' || c = '\r' || c.toNat = 11 || c.toNat = 12

/-- Model of Python `str.strip()`: drop leading and trailing whitespace. -/
def pyStrip (s : String) : String :=
  String.mk (((s.toList.dropWhile pyWs).reverse.dropWhile pyWs).reverse)

/-- ASCII lowercasing of one character, as `str.lower` acts on ASCII. -/
def asciiLower (c : Char) : Char :=
  if 'A' ≤ c ∧ c ≤ 'Z' then Char.ofNat (c.toNat + 32) else c

/-- Model of Python `str.lower()` on ASCII strings. -/
def pyLower (s : String) : String :=
  String.mk (s.toList.map asciiLower)

/-- Whether `pre` is a prefix of `s` (Python `s.startswith(pre)`). -/
def startsWithL (s pre : String) : Bool :=
  pre.toList.isPrefixOf s.toList

/-- Split a character list on every occurrence of `c` (Python
`str.split(c)` semantics: empty pieces are kept). -/
def splitOnChar (c : Char) : List Char → List (List Char)
  | [] => [[]]
  | x :: r =>
    match splitOnChar c r with
    | [] => [[]]
    | h :: t => if x = c then [] :: h :: t else (x :: h) :: t

/-- Value of one hexadecimal digit character, if it is one. -/
def hexVal (c : Char) : Option Nat :=
  if '0' ≤ c ∧ c ≤ '9' then some (c.toNat - '0'.toNat)
  else if 'a' ≤ c ∧ c ≤ 'f' then some (c.toNat - 'a'.toNat + 10)
  else if 'A' ≤ c ∧ c ≤ 'F' then some (c.toNat - 'A'.toNat + 10)
  else none

/-- Uppercase hexadecimal digit for a value below 16. -/
def hexUpper (n : Nat) : Char :=
  if n < 10 then Char.ofNat ('0'.toNat + n) else Char.ofNat ('A'.toNat + n - 10)

/-- `%XX` percent-escape of one byte, uppercase hex as `urllib.parse.quote`. -/
def percentByte (n : Nat) : String :=
  String.mk ['%', hexUpper (n / 16), hexUpper (n % 16)]

/-- `urllib.parse` always-safe characters: ASCII alphanumerics and `_.-~`. -/
def isAlwaysSafe (c : Char) : Bool :=
  c.isAlpha || c.isDigit || c = '_' || c = '.' || c = '-' || c = '~'

/-- Quote one character: keep safe characters, percent-escape the UTF-8
bytes of the rest, as `urllib.parse.quote` does. -/
def quoteChar (safe : List Char) (c : Char) : String :=
  if isAlwaysSafe c || safe.contains c then String.singleton c
  else String.join ((utf8EncodeChar c).map percentByte)

/-- Model of `urllib.parse.quote(s, safe)`. -/
def quote (s : String) (safe : List Char) : String :=
  String.join (s.toList.map (quoteChar safe))

/-- Model of `urllib.parse.quote_plus(s)`: like `quote` with empty safe set
but encoding a space as `+`. -/
def quote_plus (s : String) : String :=
  String.join (s.toList.map (fun c => if c = ' ' then "+" else quoteChar [] c))

/-- Model of `urllib.parse.urlencode(pairs)` on string pairs (the
`doseq=True` call in `_normalize_url` reduces to this on `parse_qsl`
output). -/
def urlencode (pairs : List (String × String)) : String :=
  String.intercalate "&" (pairs.map (fun kv => quote_plus kv.1 ++ "=" ++ quote_plus kv.2))

/-- One pass of `+`-to-space replacement and percent-decoding, the
composition `unquote(s.replace(pl, sp))` that `parse_qsl` applies to each
name and value (`pl` the plus sign, `sp` the space); invalid percent
sequences are left literal, as in `urllib.parse.unquote`. -/
def unquoteAux : Nat → List Char → List Char
  | 0, l => l
  | _ + 1, [] => []
  | fuel + 1, c :: r =>
    if c = '+' then ' ' :: unquoteAux fuel r
    else if c = '%' then
      match r with
      | h1 :: h2 :: r2 =>
        match hexVal h1, hexVal h2 with
        | some a, some b => Char.ofNat (16 * a + b) :: unquoteAux fuel r2
        | _, _ => '%' :: unquoteAux fuel r
      | _ => '%' :: unquoteAux fuel r
    else c :: unquoteAux fuel r

def unquotePlusChars (l : List Char) : List Char :=
  unquoteAux l.length l

/-- String form of `unquotePlusChars`. -/
def unquote_plus (s : String) : String :=
  String.mk (unquotePlusChars s.toList)

/-- Model of `urllib.parse.parse_qsl(qs)` with default arguments: split on
`&`, skip empty fragments, skip pairs without `=` or with an empty value,
and `+`/percent-decode each name and value. -/
def parse_qsl (qs : String) : List (String × String) :=
  ((splitOnChar '&' qs.toList).map String.mk).filterMap (fun nv =>
    if nv = "" then none
    else match splitFirstOn nv '=' with
      | none => none
      | some (n, v) => if v = "" then none else some (unquote_plus n, unquote_plus v))

/-- The parsed components of a URL, as `urllib.parse.urlparse` returns
them: `(scheme, netloc, path, params, query, fragment)`. -/
structure ParsedUrl where
  scheme : String
  netloc : String
  path : String
  params : String
  query : String
  fragment : String
deriving DecidableEq

/-- Characters allowed in a URL scheme after the first letter. -/
def isSchemeChar (c : Char) : Bool :=
  c.isAlpha || c.isDigit || c = '+' || c = '-' || c = '.'

/-- Scheme extraction step of `urllib.parse.urlsplit`: before the first
colon, if that part starts with an ASCII letter and uses only scheme
characters, it is the (lowercased) scheme. -/
def splitScheme (s : String) : String × String :=
  match splitFirstOn s ':' with
  | none => ("", s)
  | some (pre, rest) =>
    match pre.toList with
    | [] => ("", s)
    | c0 :: _ =>
      if c0.isAlpha ∧ pre.toList.all isSchemeChar then (pyLower pre, rest)
      else ("", s)

/-- Netloc extraction step of `urllib.parse.urlsplit`: after a leading
`//`, the netloc runs until the first `/`, `?` or `#`. -/
def splitNetloc (s : String) : String × String :=
  if startsWithL s "//" then
    let rest := s.toList.drop 2
    let nl := rest.takeWhile (fun c => c ≠ '/' && c ≠ '?' && c ≠ '#')
    (String.mk nl, String.mk (rest.drop nl.length))
  else ("", s)

/-- Index of the last occurrence of `c` in `l`, if any. -/
def lastIdxOf (l : List Char) (c : Char) : Option Nat :=
  (l.reverse.findIdx? (fun x => x = c)).map (fun j => l.length - 1 - j)

/-- Index of the first occurrence of `c` in `l` at or after `start`. -/
def findFrom (l : List Char) (c : Char) (start : Nat) : Option Nat :=
  ((l.drop start).findIdx? (fun x => x = c)).map (· + start)

/-- Params extraction step of `urllib.parse.urlparse` (`_splitparams`):
when the path has a `/`, split at the first `;` in its last segment,
otherwise at the first `;` anywhere. -/
def splitParams (path : String) : String × String :=
  let l := path.toList
  if l.contains '/' then
    match lastIdxOf l '/' with
    | none => (path, "")
    | some k =>
      match findFrom l ';' k with
      | none => (path, "")
      | some i => (String.mk (l.take i), String.mk (l.drop (i + 1)))
  else
    match splitFirstOn path ';' with
    | none => (path, "")
    | some (a, b) => (a, b)

/-- Model of `urllib.parse.urlparse` (via `urlsplit`): extract scheme,
netloc, fragment (at the first `#`), query (at the first `?`), then split
params off the remaining path. -/
def urlparse (url : String) : ParsedUrl :=
  let (scheme, u1) := splitScheme url
  let (netloc, u2) := splitNetloc u1
  let (u3, fragment) :=
    match splitFirstOn u2 '#' with
    | some (a, b) => (a, b)
    | none => (u2, "")
  let (rest, query) :=
    match splitFirstOn u3 '?' with
    | some (a, b) => (a, b)
    | none => (u3, "")
  let (path, params) := splitParams rest
  ⟨scheme, netloc, path, params, query, fragment⟩

/-- Model of `urllib.parse.urlunsplit`. -/
def urlunsplit (scheme netloc url query fragment : String) : String :=
  let url :=
    if netloc ≠ "" ∨ startsWithL url "//" then
      "//" ++ netloc ++ (if url ≠ "" ∧ ¬ startsWithL url "/" then "/" ++ url else url)
    else url
  let url := if scheme ≠ "" then scheme ++ ":" ++ url else url
  let url := if query ≠ "" then url ++ "?" ++ query else url
  if fragment ≠ "" then url ++ "#" ++ fragment else url

/-- Model of `urllib.parse.urlunparse`. -/
def urlunparse (scheme netloc url params query fragment : String) : String :=
  urlunsplit scheme netloc (if params ≠ "" then url ++ ";" ++ params else url) query fragment

/-- `_normalize_url` (crawler.py lines 42-48): percent-encode the path,
re-encode the query via `parse_qsl`/`urlencode`, and reassemble. -/
def _normalize_url (url : String) : String :=
  let parsed := urlparse url
  let normalized_path := quote parsed.path ['/']
  let query := urlencode (parse_qsl parsed.query)
  urlunparse parsed.scheme parsed.netloc normalized_path parsed.params query parsed.fragment

/-- The MIME-normalization expression `(mime_type or "").split(";")[0].strip().lower()`
that appears both in `_derive_type_and_ext` (line 52) and in the HTML
guard of `_save_artifact` (line 96). -/
def _strip_mime (mime_type : String) : String :=
  pyLower (pyStrip (String.mk (mime_type.toList.takeWhile (fun c => c ≠ ';'))))

/-- `_derive_type_and_ext` (crawler.py lines 51-65). -/
def _derive_type_and_ext (mime_type : String) : String × String :=
  let mime := _strip_mime mime_type
  if mime = "text/html" ∨ mime = "application/xhtml+xml" then ("html", "html")
  else if mime = "text/plain" then ("text", "txt")
  else if mime = "application/pdf" then ("pdf", "pdf")
  else if mime = "image/png" then ("png", "png")
  else if mime = "image/jpeg" then ("jpg", "jpg")
  else if mime = "image/webp" then ("webp", "webp")
  else ("html", "html")

/-- The html-family membership test of the guard in `_save_artifact`
(line 96): stripped, lowercased MIME in `{text/html, application/xhtml+xml}`. -/
def htmlFamily (mime_type : String) : Bool :=
  _strip_mime mime_type = "text/html" || _strip_mime mime_type = "application/xhtml+xml"

/-- `_looks_like_html` (crawler.py lines 68-70): strip leading whitespace,
keep the first 512 bytes, lowercase, and look for a doctype or html-tag
signature. -/
def _looks_like_html (data : List Nat) : Bool :=
  let trimmed := ((data.dropWhile wsByte).take 512).map lowerByte
  (bytesOfAscii "<!doctype html").isPrefixOf trimmed
    || (bytesOfAscii "<html").isPrefixOf trimmed
    || containsSub (bytesOfAscii "<html") trimmed

/-- The digest functions used by the store: `hashlib.sha256(...).hexdigest()`
and `hashlib.sha1(...).hexdigest()`.  They are library calls external to
the repository, so the model abstracts them as an arbitrary pair of
functions from byte strings to hex strings; every theorem below is proved
for all such pairs. -/
structure Hashes where
  sha256hex : List Nat → String
  sha1hex : List Nat → String

/-- `_sha256_bytes` (crawler.py lines 18-21). -/
def _sha256_bytes (H : Hashes) (data : List Nat) : String :=
  H.sha256hex data

/-- `_build_doc_key` (crawler.py lines 34-39): first 16 hex characters of
the SHA-1 of the UTF-8 bytes of `"{source_type}:{source_id}"`. -/
def _build_doc_key (H : Hashes) (source_type source_id : String) : String :=
  String.mk ((H.sha1hex (strBytes (source_type ++ ":" ++ source_id))).toList.take 16)

/-- The `source` sub-object of a manifest (crawler.py lines 112-116). -/
structure SourceInfo where
  url : String
  sourceId : String
  mimeType : String
deriving DecidableEq

/-- The manifest dictionary built by `_save_artifact` (crawler.py lines
108-120). -/
structure Manifest where
  type : String
  version : Nat
  runId : String
  source : SourceInfo
  rawPath : String
  checksum : String
  createdAt : String
deriving DecidableEq

/-- Contents of one file in the modelled filesystem: either raw bytes or a
manifest stored as JSON.  A manifest file that holds plain bytes models an
existing file that `json.loads` fails to parse. -/
inductive FileData where
  | bytes (data : List Nat)
  | manifestJson (m : Manifest)
deriving DecidableEq

/-- One primitive filesystem operation performed by the store. -/
inductive FsOp where
  | mkdirParents (dir : String)
  | write (path : String) (data : FileData)
  | rename (src dst : String)
deriving DecidableEq

/-- The filesystem: an association list from path to file contents. -/
def FS : Type := List (String × FileData)

/-- Look a path up in the filesystem. -/
def fsLookup (fs : FS) (p : String) : Option FileData :=
  ((fs : List (String × FileData)).find? (fun kv => kv.1 = p)).map (fun kv => kv.2)

/-- Store contents at a path, replacing any previous entry. -/
def fsSet (fs : FS) (p : String) (d : FileData) : FS :=
  (p, d) :: (fs : List (String × FileData)).filter (fun kv => kv.1 ≠ p)

/-- Apply one filesystem operation.  `mkdir -p` does not change modelled
contents; `rename` moves the source entry onto the destination. -/
def applyOp (fs : FS) : FsOp → FS
  | .mkdirParents _ => fs
  | .write p d => fsSet fs p d
  | .rename src dst =>
    match fsLookup fs src with
    | some d => fsSet ((fs : List (String × FileData)).filter (fun kv => kv.1 ≠ src)) dst d
    | none => fs

/-- Apply a trace of filesystem operations in order. -/
def applyOps (fs : FS) (ops : List FsOp) : FS :=
  ops.foldl applyOp fs

/-- Directory part of a path (text before the last `/`), as
`path.parent`. -/
def dirOf (p : String) : String :=
  match lastIdxOf p.toList '/' with
  | some k => String.mk (p.toList.take k)
  | none => ""

/-- The temporary sibling `path.with_suffix(path.suffix + ".tmp")`.  Every
path the store writes ends in `.{ext}` or `.json` where the extension
contains no further dot, so `with_suffix` appends `.tmp`. -/
def tmpOf (p : String) : String :=
  p ++ ".tmp"

/-- `_safe_write_atomic` (crawler.py lines 24-31) as a trace: ensure the
parent directory exists, write the full content to the temporary sibling,
then atomically rename it onto the final path. -/
def _safe_write_atomic (path : String) (data : FileData) : List FsOp :=
  [.mkdirParents (dirOf path), .write (tmpOf path) data, .rename (tmpOf path) path]

/-- The MIME-correction prelude of `_save_artifact` (crawler.py lines
95-100): for a declared html-family MIME type, reject payloads that sniff
as HTML (`none`) and reclassify the rest as `text/plain`; any other
declared type passes through unchanged. -/
def _effective_mime (mime_type : String) (raw_bytes : List Nat) : Option String :=
  if htmlFamily mime_type then
    if _looks_like_html raw_bytes then none else some "text/plain"
  else some mime_type

/-- The manifest dictionary literal of `_save_artifact` (crawler.py lines
108-120); `now` stands for `datetime.now(timezone.utc).isoformat()`. -/
def _build_manifest (H : Hashes) (raw_bytes : List Nat)
    (source_type ext doc_key run_id source_url normalized_url effective_mime now : String) :
    Manifest :=
  { type := source_type
    version := 1
    runId := run_id
    source := ⟨source_url, normalized_url, effective_mime⟩
    rawPath := "raw/" ++ doc_key ++ "." ++ ext
    checksum := _sha256_bytes H raw_bytes
    createdAt := now }

/-- `_save_artifact` (crawler.py lines 84-142), returning the manifest (or
`None`) together with the trace of filesystem writes it performs.  The
dedup check reads the existing manifest from `fs`; a manifest file holding
unparseable bytes falls through exactly as the `except` branch at lines
128-129 does. -/
def _save_artifact (H : Hashes) (raw_bytes : List Nat)
    (mime_type source_url run_id : String) (raw_dir parsed_dir : String)
    (dry_run : Bool) (now : String) (fs : FS) :
    Option Manifest × List FsOp :=
  let normalized_url := _normalize_url source_url
  match _effective_mime mime_type raw_bytes with
  | none => (none, [])
  | some effective_mime =>
    let te := _derive_type_and_ext effective_mime
    let source_type := te.1
    let ext := te.2
    let doc_key := _build_doc_key H source_type normalized_url
    let raw_path := raw_dir ++ "/" ++ doc_key ++ "." ++ ext
    let manifest_path := parsed_dir ++ "/" ++ doc_key ++ ".json"
    let manifest := _build_manifest H raw_bytes source_type ext doc_key
      run_id source_url normalized_url effective_mime now
    let writeResult : Option Manifest × List FsOp :=
      if dry_run then (some manifest, [])
      else (some manifest,
        _safe_write_atomic raw_path (.bytes raw_bytes)
          ++ _safe_write_atomic manifest_path (.manifestJson manifest))
    match fsLookup fs manifest_path with
    | some (.manifestJson existing) =>
      if existing.checksum = manifest.checksum then (some existing, [])
      else writeResult
    | some (.bytes _) => writeResult
    | none => writeResult

/-- The derived manifest path `parsed_dir / f"{doc_key}.json"` of a
`_save_artifact` call, for stating dedup hypotheses. -/
def manifestPathOf (H : Hashes) (mime_type : String) (raw_bytes : List Nat)
    (source_url parsed_dir : String) : Option String :=
  (_effective_mime mime_type raw_bytes).map (fun em =>
    parsed_dir ++ "/"
      ++ _build_doc_key H (_derive_type_and_ext em).1 (_normalize_url source_url)
      ++ ".json")

/-- Whether the dedup check of `_save_artifact` hits: a parseable manifest
exists at `mp` and its `checksum` equals `cs`. -/
def dedupHit (fs : FS) (mp : String) (cs : String) : Bool :=
  match fsLookup fs mp with
  | some (.manifestJson existing) => existing.checksum = cs
  | _ => false

/-- An HTTP response after `raise_for_status()` succeeded: its body and
the value of `resp.headers.get("Content-Type", "")`. -/
structure HttpResp where
  content : List Nat
  contentType : String
deriving DecidableEq

/-- The external collaborators of `run_crawler`: the six producer
functions of `parsing.main` (each either returns its task-shaped data or
raises, modelled as `Except` with the exception's message string), the
HTTP layer (`requests.get(url, timeout=30)` followed by
`raise_for_status()`, which together either yield a response or raise),
and the six static reference URLs. -/
structure Env where
  call_schedule_produce : Except String (List String × String × String)
  class_schedule_produce : Except String (String × List String × String)
  session_schedule_produce : Except String (String × List String × String)
  rating_list_produce : Except String (List (String × String) × String)
  scholarship_list_produce : Except String (String × String × String × String)
  timetable_calendar_produce : Except String (String × List (String × String) × String)
  http_get : String → Except String HttpResp
  URL_CALL_SCHEDULE : String
  URL_CLASS_SCHEDULE : String
  URL_SESSION_SCHEDULE : String
  URL_SCHOLARSHIP_LIST : String
  URL_TIMETABLE_CALENDAR : String

/-- The task-shaped data tuple stored under `"data"` in a successful
run-report entry, one constructor per task shape. -/
inductive TaskData where
  | callSchedule (textLines : List String) (imageUrl pageUrl : String)
  | imagesTask (title : String) (imageUrls : List String) (pageUrl : String)
  | ratingList (files : List (String × String)) (pageUrl : String)
  | scholarship (fileUrl fileName fileText pageUrl : String)
  | timetable (title : String) (files : List (String × String)) (pageUrl : String)
deriving DecidableEq

/-- One entry of the run report: `{data, artifacts}` on success or
`{name, runId, source: {url}, error}` on failure. -/
inductive ReportEntry where
  | ok (data : TaskData) (artifacts : List Manifest)
  | err (name runId url error : String)
deriving DecidableEq

/-- How the task loop turns a task outcome into its report entry
(crawler.py lines 170 and 254-261). -/
def entryFor (run_id name url : String) :
    Except String (TaskData × List Manifest) → ReportEntry
  | .ok (d, arts) => .ok d arts
  | .error e => .err name run_id url e

/-- The fetch-and-save loop shared by the multi-file task handlers
(crawler.py lines 188-220 and 238-253): fetch each URL in order, save the
payload, and collect non-null manifests; the first raising fetch aborts
the loop and propagates (there is no per-file `try`), leaving earlier
writes in place. -/
def fetchSaveList (env : Env) (H : Hashes) (run_id raw_dir parsed_dir : String)
    (dry_run : Bool) (now : String) :
    List String → FS → Except String (List Manifest) × FS × List FsOp
  | [], fs => (.ok [], fs, [])
  | u :: rest, fs =>
    match env.http_get u with
    | .error e => (.error e, fs, [])
    | .ok resp =>
      let sa := _save_artifact H resp.content resp.contentType u run_id
        raw_dir parsed_dir dry_run now fs
      let fs2 := applyOps fs sa.2
      let r := fetchSaveList env H run_id raw_dir parsed_dir dry_run now rest fs2
      match r.1 with
      | .error e => (.error e, r.2.1, sa.2 ++ r.2.2)
      | .ok ms => (.ok (sa.1.toList ++ ms), r.2.1, sa.2 ++ r.2.2)

/-- The body of the task loop of `run_crawler` for one task (crawler.py
lines 166-261): run the producer, dispatch on the task name, fetch and
save the task's payloads, and return either the success data with its
collected manifests or the first exception's message.  The returned
filesystem and trace include the writes performed before a failure, just
as the real writes persist when a later fetch raises. -/
def runTask (env : Env) (H : Hashes) (run_id raw_dir parsed_dir : String)
    (dry_run : Bool) (now : String) (name : String) (fs : FS) :
    Except String (TaskData × List Manifest) × FS × List FsOp :=
  if name = "call_schedule" then
    match env.call_schedule_produce with
    | .error e => (.error e, fs, [])
    | .ok (text_lines, image_url, page_url) =>
      let text_bytes := strBytes (String.intercalate "\n" text_lines)
      let text_source := page_url ++ "#text"
      let sa := _save_artifact H text_bytes "text/plain" text_source run_id
        raw_dir parsed_dir dry_run now fs
      (.ok (.callSchedule text_lines image_url page_url, sa.1.toList), applyOps fs sa.2, sa.2)
  else if name = "class_schedule" then
    match env.class_schedule_produce with
    | .error e => (.error e, fs, [])
    | .ok (title, image_urls, page_url) =>
      let r := fetchSaveList env H run_id raw_dir parsed_dir dry_run now image_urls fs
      match r.1 with
      | .error e => (.error e, r.2.1, r.2.2)
      | .ok ms => (.ok (.imagesTask title image_urls page_url, ms), r.2.1, r.2.2)
  else if name = "session_schedule" then
    match env.session_schedule_produce with
    | .error e => (.error e, fs, [])
    | .ok (title, image_urls, page_url) =>
      let r := fetchSaveList env H run_id raw_dir parsed_dir dry_run now image_urls fs
      match r.1 with
      | .error e => (.error e, r.2.1, r.2.2)
      | .ok ms => (.ok (.imagesTask title image_urls page_url, ms), r.2.1, r.2.2)
  else if name = "rating_list" then
    match env.rating_list_produce with
    | .error e => (.error e, fs, [])
    | .ok (rating_files, page_url) =>
      let r := fetchSaveList env H run_id raw_dir parsed_dir dry_run now
        (rating_files.map (fun fp => fp.2)) fs
      match r.1 with
      | .error e => (.error e, r.2.1, r.2.2)
      | .ok ms => (.ok (.ratingList rating_files page_url, ms), r.2.1, r.2.2)
  else if name = "scholarship_list" then
    match env.scholarship_list_produce with
    | .error e => (.error e, fs, [])
    | .ok (file_url, file_name, file_text, page_url) =>
      match env.http_get file_url with
      | .error e => (.error e, fs, [])
      | .ok resp =>
        let sa := _save_artifact H resp.content resp.contentType file_url run_id
          raw_dir parsed_dir dry_run now fs
        (.ok (.scholarship file_url file_name file_text page_url, sa.1.toList),
          applyOps fs sa.2, sa.2)
  else if name = "timetable_calendar" then
    match env.timetable_calendar_produce with
    | .error e => (.error e, fs, [])
    | .ok (title, files, page_url) =>
      let r := fetchSaveList env H run_id raw_dir parsed_dir dry_run now
        (files.map (fun fp => fp.2)) fs
      match r.1 with
      | .error e => (.error e, r.2.1, r.2.2)
      | .ok ms => (.ok (.timetable title files page_url, ms), r.2.1, r.2.2)
  else (.error "unknown task", fs, [])

/-- `_build_parser_tasks` (crawler.py lines 73-81): the fixed ordered task
list as `(name, reference URL)` pairs; the producer functions themselves
are dispatched by name in `runTask`.  Note that `rating_list` uses
`URL_SCHOLARSHIP_LIST` as its reference URL, as line 78 does. -/
def _build_parser_tasks (env : Env) : List (String × String) :=
  [("call_schedule", env.URL_CALL_SCHEDULE),
   ("class_schedule", env.URL_CLASS_SCHEDULE),
   ("session_schedule", env.URL_SESSION_SCHEDULE),
   ("rating_list", env.URL_SCHOLARSHIP_LIST),
   ("scholarship_list", env.URL_SCHOLARSHIP_LIST),
   ("timetable_calendar", env.URL_TIMETABLE_CALENDAR)]

/-- The task loop of `run_crawler` (crawler.py lines 166-261) over a task
list, threading the filesystem through and concatenating the traces. -/
def runTasks (env : Env) (H : Hashes) (run_id raw_dir parsed_dir : String)
    (dry_run : Bool) (now : String) :
    List (String × String) → FS → List (String × ReportEntry) × FS × List FsOp
  | [], fs => ([], fs, [])
  | (name, url) :: rest, fs =>
    let t := runTask env H run_id raw_dir parsed_dir dry_run now name fs
    let r := runTasks env H run_id raw_dir parsed_dir dry_run now rest t.2.1
    ((name, entryFor run_id name url t.1) :: r.1, r.2.1, t.2.2 ++ r.2.2)

/-- `run_crawler` (crawler.py lines 145-270).  `started_at_id` stands for
`started_at.strftime("%Y%m%dT%H%M%SZ")`, the default run identifier, and
`now` for the manifest timestamp; both are strings supplied by the clock,
which is external to the model. -/
def run_crawler (env : Env) (H : Hashes) (artifacts_dir : String)
    (dry_run : Bool) (run_id : Option String) (started_at_id now : String)
    (fs : FS) : List (String × ReportEntry) × FS × List FsOp :=
  let rid := run_id.getD started_at_id
  runTasks env H rid (artifacts_dir ++ "/raw") (artifacts_dir ++ "/parsed")
    dry_run now (_build_parser_tasks env) fs

/-- The filesystem state just before task `k` of a task list runs, i.e.
after the first `k` tasks of the loop have completed. -/
def fsBeforeTask (env : Env) (H : Hashes) (run_id raw_dir parsed_dir : String)
    (dry_run : Bool) (now : String) :
    List (String × String) → FS → Nat → FS
  | _, fs, 0 => fs
  | [], fs, _ + 1 => fs
  | (name, _) :: rest, fs, k + 1 =>
    fsBeforeTask env H run_id raw_dir parsed_dir dry_run now rest
      ((runTask env H run_id raw_dir parsed_dir dry_run now name fs).2.1) k

/-- Whether a trace consists only of atomic write triples: ensure the
final path's parent directory, write the full content to the `.tmp`
sibling, then rename that sibling onto the final path. -/
def isAtomicTrace : List FsOp → Bool
  | [] => true
  | .mkdirParents d :: .write p _ :: .rename s q :: rest =>
    p == tmpOf q && s == p && d == dirOf q && isAtomicTrace rest
  | _ => false

/-- Concrete digest functions used to exercise the model on closed
inputs (the theorems themselves hold for every `Hashes`). -/
def Hdemo : Hashes :=
  ⟨fun b => "sha" ++ toString (b.foldl (fun a n => a * 31 + n + 1) 7),
   fun b => "k" ++ toString (b.foldl (fun a n => a * 33 + n + 5) 3) ++ "aaaaaaaaaaaaaaaa"⟩

/-- Sample text payload. -/
def dbDemo : List Nat := bytesOfAscii "Mon-Fri 9-5"

/-- Sample HTML error-page payload. -/
def hbDemo : List Nat := bytesOfAscii "<!DOCTYPE html><p>error page</p>"

/-- Sample source URL. -/
def urlDemo : String := "https://x/s#text"

/-- Artifact key of the sample text payload's source. -/
def keyDemo : String := _build_doc_key Hdemo "text" (_normalize_url urlDemo)

/-- The manifest the store builds for the sample text payload. -/
def m1Demo : Manifest :=
  _build_manifest Hdemo dbDemo "text" "txt" keyDemo "r1" urlDemo (_normalize_url urlDemo)
    "text/plain" "t1"

/-- Manifest path of the sample payload under `a/parsed`. -/
def mpathDemo : String := "a/parsed/" ++ keyDemo ++ ".json"

/-- A filesystem that already holds the sample payload's manifest. -/
def wfsDemo : FS := [(mpathDemo, .manifestJson m1Demo)]

/-- Sample HTTP response. -/
def respDemo : HttpResp := ⟨bytesOfAscii "PDFDATA", "application/pdf"⟩

/-- Environment in which the third task's producer raises and every other
producer and fetch succeeds. -/
def cenv : Env :=
  { call_schedule_produce := .ok (["Mon 9:00"], "https://x/img.png", "https://x/call")
    class_schedule_produce := .ok ("Classes", [], "https://x/class")
    session_schedule_produce := .error "boom"
    rating_list_produce := .ok ([], "https://x/rating")
    scholarship_list_produce := .ok ("https://x/f.pdf", "f.pdf", "text", "https://x/sch")
    timetable_calendar_produce := .ok ("TT", [], "https://x/tt")
    http_get := fun _ => .ok respDemo
    URL_CALL_SCHEDULE := "https://x/call"
    URL_CLASS_SCHEDULE := "https://x/class"
    URL_SESSION_SCHEDULE := "https://x/session"
    URL_SCHOLARSHIP_LIST := "https://x/sch"
    URL_TIMETABLE_CALENDAR := "https://x/tt" }

/-- Environment for the per-file isolation question: the `class_schedule`
producer returns two image URLs, the first fetch raises, the second would
succeed; the other producers raise immediately. -/
def cenv3 : Env :=
  { call_schedule_produce := .error "skip"
    class_schedule_produce := .ok ("T", ["https://x/i1.png", "https://x/i2.png"], "https://x/class")
    session_schedule_produce := .error "skip"
    rating_list_produce := .error "skip"
    scholarship_list_produce := .error "skip"
    timetable_calendar_produce := .error "skip"
    http_get := fun u => if u = "https://x/i1.png" then .error "net down" else .ok respDemo
    URL_CALL_SCHEDULE := "https://x/call"
    URL_CLASS_SCHEDULE := "https://x/class"
    URL_SESSION_SCHEDULE := "https://x/session"
    URL_SCHOLARSHIP_LIST := "https://x/sch"
    URL_TIMETABLE_CALENDAR := "https://x/tt" }

/-- Environment whose single `class_schedule` image fetch returns an HTML
error page declared as `text/html`. -/
def cenvHtml : Env :=
  { call_schedule_produce := .error "skip"
    class_schedule_produce := .ok ("T", ["https://x/i1.png"], "https://x/class")
    session_schedule_produce := .error "skip"
    rating_list_produce := .error "skip"
    scholarship_list_produce := .error "skip"
    timetable_calendar_produce := .error "skip"
    http_get := fun _ => .ok ⟨hbDemo, "text/html"⟩
    URL_CALL_SCHEDULE := "https://x/call"
    URL_CLASS_SCHEDULE := "https://x/class"
    URL_SESSION_SCHEDULE := "https://x/session"
    URL_SCHOLARSHIP_LIST := "https://x/sch"
    URL_TIMETABLE_CALENDAR := "https://x/tt" }

/-- Environment where the second of two `class_schedule` image fetches
raises and the first succeeds with a PNG payload. -/
def cenv4 : Env :=
  { call_schedule_produce := .error "skip"
    class_schedule_produce := .ok ("T", ["https://x/ok.png", "https://x/bad.png"], "https://x/class")
    session_schedule_produce := .error "skip"
    rating_list_produce := .error "skip"
    scholarship_list_produce := .error "skip"
    timetable_calendar_produce := .error "skip"
    http_get := fun u =>
      if u = "https://x/bad.png" then .error "net down"
      else .ok ⟨bytesOfAscii "PNGDATA", "image/png"⟩
    URL_CALL_SCHEDULE := "https://x/call"
    URL_CLASS_SCHEDULE := "https://x/class"
    URL_SESSION_SCHEDULE := "https://x/session"
    URL_SCHOLARSHIP_LIST := "https://x/sch"
    URL_TIMETABLE_CALENDAR := "https://x/tt" }

/-- Artifact key of the successful PNG fetch in `cenv4`. -/
def keyPng : String := _build_doc_key Hdemo "png" (_normalize_url "https://x/ok.png")

/-- Manifest the store builds for the successful PNG fetch in `cenv4`. -/
def mPng : Manifest :=
  _build_manifest Hdemo (bytesOfAscii "PNGDATA") "png" "png" keyPng "r"
    "https://x/ok.png" (_normalize_url "https://x/ok.png") "image/png" "t"

/-- Write trace of the successful first file of `cenv4`'s class task. -/
def tr1Demo : List FsOp :=
  _safe_write_atomic ("a/raw" ++ "/" ++ keyPng ++ "." ++ "png")
      (.bytes (bytesOfAscii "PNGDATA"))
    ++ _safe_write_atomic ("a/parsed" ++ "/" ++ keyPng ++ ".json") (.manifestJson mPng)

/-- Filesystem after the first file of `cenv4`'s class task was saved. -/
def fs1Demo : FS := applyOps [] tr1Demo

lemma lookup_fsSet_self (fs : FS) (p : String) (d : FileData) :
    fsLookup (fsSet fs p d) p = some d := by
  simp [fsLookup, fsSet, List.find?]

/-- The HTML guard: declared html-family MIME plus sniffed HTML bytes
makes the store return `None` without any write. -/
lemma save_rejects_html (H : Hashes) (raw_bytes : List Nat)
    (mime_type source_url run_id raw_dir parsed_dir : String) (dry_run : Bool)
    (now : String) (fs : FS) (hf : htmlFamily mime_type = true)
    (hl : _looks_like_html raw_bytes = true) :
    _save_artifact H raw_bytes mime_type source_url run_id raw_dir parsed_dir
      dry_run now fs = (none, []) := by
  simp [_save_artifact, _effective_mime, hf, hl]

/-- C6: the Content Classifier strips parameters at the first `;`, trims
and lowercases, then maps html-family types to `(html, html)`,
`text/plain` to `(text, txt)`, `application/pdf` to `(pdf, pdf)`,
`image/png`, `image/jpeg` and `image/webp` to `(png, png)`, `(jpg, jpg)`
and `(webp, webp)`, and every other or missing value to `(html, html)`. -/
theorem derive_type_and_ext_mapping :
    (∀ s, (_strip_mime s = "text/html" ∨ _strip_mime s = "application/xhtml+xml") →
      _derive_type_and_ext s = ("html", "html"))
    ∧ (∀ s, _strip_mime s = "text/plain" → _derive_type_and_ext s = ("text", "txt"))
    ∧ (∀ s, _strip_mime s = "application/pdf" → _derive_type_and_ext s = ("pdf", "pdf"))
    ∧ (∀ s, _strip_mime s = "image/png" → _derive_type_and_ext s = ("png", "png"))
    ∧ (∀ s, _strip_mime s = "image/jpeg" → _derive_type_and_ext s = ("jpg", "jpg"))
    ∧ (∀ s, _strip_mime s = "image/webp" → _derive_type_and_ext s = ("webp", "webp"))
    ∧ (∀ s, _strip_mime s ∉ (["text/html", "application/xhtml+xml", "text/plain",
        "application/pdf", "image/png", "image/jpeg", "image/webp"] : List String) →
      _derive_type_and_ext s = ("html", "html")) := by
  refine ⟨?_, ?_, ?_, ?_, ?_, ?_, ?_⟩ <;> intro s h
  · rcases h with h | h <;> rw [_derive_type_and_ext, h] <;> simp
  · rw [_derive_type_and_ext, h]; simp
  · rw [_derive_type_and_ext, h]; simp
  · rw [_derive_type_and_ext, h]; simp
  · rw [_derive_type_and_ext, h]; simp
  · rw [_derive_type_and_ext, h]; simp
  · simp only [List.mem_cons, List.not_mem_nil, or_false, not_or] at h
    obtain ⟨h1, h2, h3, h4, h5, h6, h7⟩ := h
    rw [_derive_type_and_ext]
    simp [h1, h2, h3, h4, h5, h6, h7]

/-- Closed instances of the classifier mapping, including a parameterised
and an uppercase declared type and an unrecognized fallback. -/
theorem derive_type_and_ext_mapping_witness :
    _derive_type_and_ext "text/html; charset=utf-8" = ("html", "html")
    ∧ _derive_type_and_ext "TEXT/PLAIN" = ("text", "txt")
    ∧ _derive_type_and_ext "application/pdf" = ("pdf", "pdf")
    ∧ _derive_type_and_ext "image/png" = ("png", "png")
    ∧ _derive_type_and_ext "image/jpeg" = ("jpg", "jpg")
    ∧ _derive_type_and_ext "image/webp" = ("webp", "webp")
    ∧ _derive_type_and_ext "application/octet-stream" = ("html", "html") :=
  ⟨derive_type_and_ext_mapping.1 "text/html; charset=utf-8" (Or.inl (by decide)),
   derive_type_and_ext_mapping.2.1 "TEXT/PLAIN" (by decide),
   derive_type_and_ext_mapping.2.2.1 "application/pdf" (by decide),
   derive_type_and_ext_mapping.2.2.2.1 "image/png" (by decide),
   derive_type_and_ext_mapping.2.2.2.2.1 "image/jpeg" (by decide),
   derive_type_and_ext_mapping.2.2.2.2.2.1 "image/webp" (by decide),
   derive_type_and_ext_mapping.2.2.2.2.2.2 "application/octet-stream" (by decide)⟩

/-- A payload that begins with the bytes `<!DOCTYPE html` always trips
the HTML sniffer. -/
lemma doctype_prefix_looks_html (bytes : List Nat)
    (h : (bytesOfAscii "<!DOCTYPE html").isPrefixOf bytes = true) :
    _looks_like_html bytes = true := by
  rw [ List.isPrefixOf_iff_prefix] at h
  obtain ⟨t, rfl⟩ := h
  have hb : bytesOfAscii "<!DOCTYPE html"
      = [60, 33, 68, 79, 67, 84, 89, 80, 69, 32, 104, 116, 109, 108] := by decide
  rw [hb]
  unfold _looks_like_html
  have hdrop : (([60, 33, 68, 79, 67, 84, 89, 80, 69, 32, 104, 116, 109, 108] : List Nat)
      ++ t).dropWhile wsByte
      = [60, 33, 68, 79, 67, 84, 89, 80, 69, 32, 104, 116, 109, 108] ++ t := by
    rw [List.cons_append, List.dropWhile_cons]
    simp [wsByte]
  rw [hdrop, List.take_append_eq_append_take, List.map_append]
  have htake : (([60, 33, 68, 79, 67, 84, 89, 80, 69, 32, 104, 116, 109, 108] : List Nat).take 512)
      = [60, 33, 68, 79, 67, 84, 89, 80, 69, 32, 104, 116, 109, 108] := by decide
  rw [htake]
  have hlow : (([60, 33, 68, 79, 67, 84, 89, 80, 69, 32, 104, 116, 109, 108] : List Nat).map lowerByte)
      = bytesOfAscii "<!doctype html" := by decide
  rw [hlow]
  have hpre : (bytesOfAscii "<!doctype html").isPrefixOf
      (bytesOfAscii "<!doctype html" ++ (t.take (512 - 14)).map lowerByte) = true := by
    rw [ List.isPrefixOf_iff_prefix]
    exact List.prefix_append _ _
  simp [hpre]

/-- C4: when the declared MIME type is html-family and the payload sniffs
as HTML, the store logs and returns `None` performing no write; and the
orchestrator treats that `None` as "no artifact produced": the task entry
stays a success entry whose artifacts list omits the rejected payload. -/
theorem html_sniff_rejection :
    (∀ (H : Hashes) (raw_bytes : List Nat)
        (mime_type source_url run_id raw_dir parsed_dir : String)
        (dry_run : Bool) (now : String) (fs : FS),
      htmlFamily mime_type = true → _looks_like_html raw_bytes = true →
      _save_artifact H raw_bytes mime_type source_url run_id raw_dir parsed_dir
        dry_run now fs = (none, []))
    ∧ (∀ (env : Env) (H : Hashes) (run_id raw_dir parsed_dir : String)
        (dry_run : Bool) (now : String) (fs : FS) (title u page_url : String)
        (resp : HttpResp),
      env.class_schedule_produce = .ok (title, [u], page_url) →
      env.http_get u = .ok resp →
      htmlFamily resp.contentType = true → _looks_like_html resp.content = true →
      runTask env H run_id raw_dir parsed_dir dry_run now "class_schedule" fs
        = (.ok (.imagesTask title [u] page_url, []), fs, [])) := by
  refine ⟨save_rejects_html, ?_⟩
  intro env H run_id raw_dir parsed_dir dry_run now fs title u page_url resp hp hh hf hl
  have hsa := save_rejects_html H resp.content resp.contentType u run_id raw_dir
    parsed_dir dry_run now fs hf hl
  simp [runTask, fetchSaveList, hp, hh, hsa, applyOps]

/-- Closed instance of the HTML-sniffing rejection: an html-declared HTML
error page is rejected with no writes, and a one-image `class_schedule`
task whose only fetch returns that page still reports success with an
empty artifacts list. -/
theorem html_sniff_rejection_witness :
    _save_artifact Hdemo hbDemo "text/html; charset=utf-8" "https://x/i1.png" "r1"
      "a/raw" "a/parsed" false "t1" [] = (none, [])
    ∧ runTask cenvHtml Hdemo "r1" "a/raw" "a/parsed" false "t1" "class_schedule" []
      = (.ok (.imagesTask "T" ["https://x/i1.png"] "https://x/class", []), [], []) :=
  ⟨html_sniff_rejection.1 Hdemo hbDemo "text/html; charset=utf-8" "https://x/i1.png"
      "r1" "a/raw" "a/parsed" false "t1" [] (by decide) (by decide),
   html_sniff_rejection.2 cenvHtml Hdemo "r1" "a/raw" "a/parsed" false "t1" []
      "T" "https://x/i1.png" "https://x/class" ⟨hbDemo, "text/html"⟩
      rfl rfl (by decide) (by decide)⟩

/-- C5 (counterexample): a payload beginning with `<!DOCTYPE html`,
passed to the store with the declared MIME type `text/plain` exactly as
the orchestrator passes the `call_schedule` text payload, does NOT yield
null: a manifest is returned and both files are written. -/
theorem html_guard_text_plain_cex :
    ((_save_artifact Hdemo hbDemo "text/plain" "https://x/s#text" "r1" "a/raw"
        "a/parsed" false "t1" []).1).isSome = true
    ∧ (_save_artifact Hdemo hbDemo "text/plain" "https://x/s#text" "r1" "a/raw"
        "a/parsed" false "t1" []).2 ≠ [] :=
  ⟨by decide, by decide⟩

/-- C5 (amended): the HTML guard keys on the declared MIME type, not on
the task's expected type: bytes beginning with `<!DOCTYPE html` yield
null with no writes when the declared type is html-family, while under
the declared type `text/plain` (what the orchestrator passes for the
text-bearing task) the guard does not run and the payload is stored, with
files written whenever the dedup check misses. -/
theorem html_guard_declared_mime :
    (∀ (H : Hashes) (raw_bytes : List Nat)
        (mime_type source_url run_id raw_dir parsed_dir : String)
        (dry_run : Bool) (now : String) (fs : FS),
      (bytesOfAscii "<!DOCTYPE html").isPrefixOf raw_bytes = true →
      htmlFamily mime_type = true →
      _save_artifact H raw_bytes mime_type source_url run_id raw_dir parsed_dir
        dry_run now fs = (none, []))
    ∧ (∀ (H : Hashes) (raw_bytes : List Nat) (source_url run_id raw_dir parsed_dir : String)
        (now : String) (fs : FS),
      dedupHit fs (parsed_dir ++ "/" ++ _build_doc_key H "text" (_normalize_url source_url)
          ++ ".json") (H.sha256hex raw_bytes) = false →
      ((_save_artifact H raw_bytes "text/plain" source_url run_id raw_dir parsed_dir
          false now fs).1).isSome = true
      ∧ (_save_artifact H raw_bytes "text/plain" source_url run_id raw_dir parsed_dir
          false now fs).2 ≠ []) := by
  constructor
  · intro H raw_bytes mime_type source_url run_id raw_dir parsed_dir dry_run now fs hpre hf
    exact save_rejects_html H raw_bytes mime_type source_url run_id raw_dir parsed_dir
      dry_run now fs hf (doctype_prefix_looks_html raw_bytes hpre)
  · intro H raw_bytes source_url run_id raw_dir parsed_dir now fs hd
    have hfam : htmlFamily "text/plain" = false := by decide
    have hte : _derive_type_and_ext "text/plain" = ("text", "txt") := by decide
    simp only [_save_artifact, _effective_mime, hfam, Bool.false_eq_true, if_false, hte]
    cases hlu : fsLookup fs (parsed_dir ++ "/"
        ++ _build_doc_key H "text" (_normalize_url source_url) ++ ".json") with
    | none => simp [_safe_write_atomic]
    | some fd =>
      cases fd with
      | bytes b => simp [hlu, _safe_write_atomic]
      | manifestJson ex =>
        have hne : ¬ ex.checksum = H.sha256hex raw_bytes := by
          intro hcs
          rw [dedupHit, hlu] at hd
          simp [hcs] at hd
        simp [hlu, _build_manifest, _sha256_bytes, hne, _safe_write_atomic]

/-- Closed instance of the declared-MIME guard behavior: the same
doctype-led payload is rejected under `text/html` and stored under
`text/plain`. -/
theorem html_guard_declared_mime_witness :
    _save_artifact Hdemo hbDemo "text/html" "https://x/e" "r1" "a/raw" "a/parsed"
      false "t1" [] = (none, [])
    ∧ (((_save_artifact Hdemo hbDemo "text/plain" "https://x/e" "r1" "a/raw" "a/parsed"
        false "t1" []).1).isSome = true
      ∧ (_save_artifact Hdemo hbDemo "text/plain" "https://x/e" "r1" "a/raw" "a/parsed"
        false "t1" []).2 ≠ []) :=
  ⟨html_guard_declared_mime.1 Hdemo hbDemo "text/html" "https://x/e" "r1" "a/raw"
      "a/parsed" false "t1" [] (by decide) (by decide),
   html_guard_declared_mime.2 Hdemo hbDemo "https://x/e" "r1" "a/raw" "a/parsed"
      "t1" [] (by decide)⟩

/-- C9: every trace of filesystem operations the store performs consists
of atomic write triples: parent directory ensured, full content written
to the `.tmp` sibling, then an atomic rename onto the final path — no
write ever targets a final path directly. -/
theorem save_artifact_atomic_trace :
    ∀ (H : Hashes) (raw_bytes : List Nat)
      (mime_type source_url run_id raw_dir parsed_dir : String)
      (dry_run : Bool) (now : String) (fs : FS),
    isAtomicTrace ((_save_artifact H raw_bytes mime_type source_url run_id raw_dir
      parsed_dir dry_run now fs).2) = true := by
  intro H raw_bytes mime_type source_url run_id raw_dir parsed_dir dry_run now fs
  cases hem : _effective_mime mime_type raw_bytes with
  | none => simp [_save_artifact, hem, isAtomicTrace]
  | some em =>
    simp only [_save_artifact, hem]
    split <;> try split
    all_goals simp [isAtomicTrace, _safe_write_atomic]
    all_goals split <;> simp [isAtomicTrace, _safe_write_atomic]

/-- Dedup hit: a parseable manifest with matching checksum at the derived
manifest path makes the store return it and perform no writes. -/
lemma save_dedup_hit (H : Hashes) (raw_bytes : List Nat)
    (mime_type source_url run_id raw_dir parsed_dir : String) (dry_run : Bool)
    (now : String) (fs : FS) (em : String) (ex : Manifest)
    (hem : _effective_mime mime_type raw_bytes = some em)
    (hlu : fsLookup fs (parsed_dir ++ "/"
        ++ _build_doc_key H (_derive_type_and_ext em).1 (_normalize_url source_url)
        ++ ".json") = some (.manifestJson ex))
    (hcs : ex.checksum = _sha256_bytes H raw_bytes) :
    _save_artifact H raw_bytes mime_type source_url run_id raw_dir parsed_dir
      dry_run now fs = (some ex, []) := by
  simp [_save_artifact, hem, hlu, _build_manifest, hcs]

/-- Dedup miss with `dry_run = False`: the store returns the candidate
manifest and writes both files atomically. -/
lemma save_writes (H : Hashes) (raw_bytes : List Nat)
    (mime_type source_url run_id raw_dir parsed_dir : String)
    (now : String) (fs : FS) (em : String)
    (hem : _effective_mime mime_type raw_bytes = some em)
    (hmiss : dedupHit fs (parsed_dir ++ "/"
        ++ _build_doc_key H (_derive_type_and_ext em).1 (_normalize_url source_url)
        ++ ".json") (_sha256_bytes H raw_bytes) = false) :
    _save_artifact H raw_bytes mime_type source_url run_id raw_dir parsed_dir
      false now fs
      = (some (_build_manifest H raw_bytes (_derive_type_and_ext em).1
          (_derive_type_and_ext em).2
          (_build_doc_key H (_derive_type_and_ext em).1 (_normalize_url source_url))
          run_id source_url (_normalize_url source_url) em now),
        _safe_write_atomic (raw_dir ++ "/"
            ++ _build_doc_key H (_derive_type_and_ext em).1 (_normalize_url source_url)
            ++ "." ++ (_derive_type_and_ext em).2) (.bytes raw_bytes)
          ++ _safe_write_atomic (parsed_dir ++ "/"
            ++ _build_doc_key H (_derive_type_and_ext em).1 (_normalize_url source_url)
            ++ ".json") (.manifestJson (_build_manifest H raw_bytes
              (_derive_type_and_ext em).1 (_derive_type_and_ext em).2
              (_build_doc_key H (_derive_type_and_ext em).1 (_normalize_url source_url))
              run_id source_url (_normalize_url source_url) em now))) := by
  simp only [_save_artifact, hem]
  cases hlu : fsLookup fs (parsed_dir ++ "/"
      ++ _build_doc_key H (_derive_type_and_ext em).1 (_normalize_url source_url)
      ++ ".json") with
  | none => simp [hlu]
  | some fd =>
    cases fd with
    | bytes b => simp [hlu]
    | manifestJson ex =>
      rw [dedupHit, hlu] at hmiss
      have hne : ¬ ex.checksum = _sha256_bytes H raw_bytes := by
        intro hcs
        simp [hcs] at hmiss
      simp [hlu, _build_manifest, hne]

/-- After the store's two atomic write triples, the manifest path holds
exactly the written manifest. -/
lemma lookup_after_atomic_writes (fs : FS) (rp mp : String) (b : List Nat)
    (man : Manifest) :
    fsLookup (applyOps fs (_safe_write_atomic rp (.bytes b)
        ++ _safe_write_atomic mp (.manifestJson man))) mp
      = some (.manifestJson man) := by
  simp [applyOps, _safe_write_atomic, applyOp, lookup_fsSet_self]

/-- C1: dedup idempotence.  If a parseable manifest already sits at the
derived manifest path with checksum equal to the SHA-256 of the payload,
the store returns that existing manifest unchanged (original `createdAt`
included) and writes nothing; consequently, calling the store twice with
identical `(rawBytes, mimeType, sourceUrl)` (the second call with any run
id, timestamp and dry-run flag) returns on the second call exactly the
first call's manifest and performs no second write. -/
theorem save_artifact_dedup_idempotent :
    (∀ (H : Hashes) (raw_bytes : List Nat)
        (mime_type source_url run_id raw_dir parsed_dir : String)
        (dry_run : Bool) (now : String) (fs : FS) (em : String) (ex : Manifest),
      _effective_mime mime_type raw_bytes = some em →
      fsLookup fs (parsed_dir ++ "/"
          ++ _build_doc_key H (_derive_type_and_ext em).1 (_normalize_url source_url)
          ++ ".json") = some (.manifestJson ex) →
      ex.checksum = _sha256_bytes H raw_bytes →
      _save_artifact H raw_bytes mime_type source_url run_id raw_dir parsed_dir
        dry_run now fs = (some ex, []))
    ∧ (∀ (H : Hashes) (raw_bytes : List Nat)
        (mime_type source_url run_id run_id2 raw_dir parsed_dir : String)
        (dry_run2 : Bool) (now now2 : String) (fs : FS) (m : Manifest),
      ((_save_artifact H raw_bytes mime_type source_url run_id raw_dir parsed_dir
          false now fs).1) = some m →
      _save_artifact H raw_bytes mime_type source_url run_id2 raw_dir parsed_dir
          dry_run2 now2
          (applyOps fs ((_save_artifact H raw_bytes mime_type source_url run_id
            raw_dir parsed_dir false now fs).2))
        = (some m, [])) := by
  constructor
  · exact save_dedup_hit
  · intro H raw_bytes mime_type source_url run_id run_id2 raw_dir parsed_dir
      dry_run2 now now2 fs m h1
    cases hem : _effective_mime mime_type raw_bytes with
    | none => simp [_save_artifact, hem] at h1
    | some em =>
      cases hdh : dedupHit fs (parsed_dir ++ "/"
          ++ _build_doc_key H (_derive_type_and_ext em).1 (_normalize_url source_url)
          ++ ".json") (_sha256_bytes H raw_bytes) with
      | true =>
        rw [dedupHit] at hdh
        cases hlu : fsLookup fs (parsed_dir ++ "/"
            ++ _build_doc_key H (_derive_type_and_ext em).1 (_normalize_url source_url)
            ++ ".json") with
        | none => rw [hlu] at hdh; simp at hdh
        | some fd =>
          cases fd with
          | bytes b => rw [hlu] at hdh; simp at hdh
          | manifestJson ex =>
            rw [hlu] at hdh
            have hcs : ex.checksum = _sha256_bytes H raw_bytes := by
              simpa using hdh
            have hfirst := save_dedup_hit H raw_bytes mime_type source_url run_id
              raw_dir parsed_dir false now fs em ex hem hlu hcs
            rw [hfirst] at h1
            have hm : ex = m := by simpa using h1
            subst hm
            rw [hfirst]
            have happ : applyOps fs ([] : List FsOp) = fs := rfl
            rw [happ]
            exact save_dedup_hit H raw_bytes mime_type source_url run_id2
              raw_dir parsed_dir dry_run2 now2 fs em ex hem hlu hcs
      | false =>
        have hfirst := save_writes H raw_bytes mime_type source_url run_id
          raw_dir parsed_dir now fs em hem hdh
        have htr : (_save_artifact H raw_bytes mime_type source_url run_id raw_dir
            parsed_dir false now fs).2
            = _safe_write_atomic (raw_dir ++ "/"
                ++ _build_doc_key H (_derive_type_and_ext em).1 (_normalize_url source_url)
                ++ "." ++ (_derive_type_and_ext em).2) (.bytes raw_bytes)
              ++ _safe_write_atomic (parsed_dir ++ "/"
                ++ _build_doc_key H (_derive_type_and_ext em).1 (_normalize_url source_url)
                ++ ".json") (.manifestJson (_build_manifest H raw_bytes
                  (_derive_type_and_ext em).1 (_derive_type_and_ext em).2
                  (_build_doc_key H (_derive_type_and_ext em).1 (_normalize_url source_url))
                  run_id source_url (_normalize_url source_url) em now)) := by
          rw [hfirst]
        rw [hfirst] at h1
        have hm : _build_manifest H raw_bytes (_derive_type_and_ext em).1
            (_derive_type_and_ext em).2
            (_build_doc_key H (_derive_type_and_ext em).1 (_normalize_url source_url))
            run_id source_url (_normalize_url source_url) em now = m := by
          simpa using h1
        rw [hm] at htr
        rw [htr]
        exact save_dedup_hit H raw_bytes mime_type source_url run_id2
          raw_dir parsed_dir dry_run2 now2 _ em m hem
          (lookup_after_atomic_writes fs
            (raw_dir ++ "/"
              ++ _build_doc_key H (_derive_type_and_ext em).1 (_normalize_url source_url)
              ++ "." ++ (_derive_type_and_ext em).2)
            (parsed_dir ++ "/"
              ++ _build_doc_key H (_derive_type_and_ext em).1 (_normalize_url source_url)
              ++ ".json") raw_bytes m)
          (by rw [← hm]; rfl)

/-- Closed instance of dedup idempotence: with the sample manifest
already on disk the store returns it unchanged with no writes, and a
fresh save followed by a replay of the same payload returns the first
call's manifest with no second write. -/
theorem save_artifact_dedup_idempotent_witness :
    _save_artifact Hdemo dbDemo "text/plain" urlDemo "rX" "a/raw" "a/parsed" true "tX"
      wfsDemo = (some m1Demo, [])
    ∧ _save_artifact Hdemo dbDemo "text/plain" urlDemo "r2" "a/raw" "a/parsed" true "t2"
        (applyOps [] ((_save_artifact Hdemo dbDemo "text/plain" urlDemo "r1" "a/raw"
          "a/parsed" false "t1" []).2))
      = (some m1Demo, []) :=
  ⟨save_artifact_dedup_idempotent.1 Hdemo dbDemo "text/plain" urlDemo "rX" "a/raw"
      "a/parsed" true "tX" wfsDemo "text/plain" m1Demo (by decide) (by decide) (by decide),
   save_artifact_dedup_idempotent.2 Hdemo dbDemo "text/plain" urlDemo "r1" "r2"
      "a/raw" "a/parsed" true "t1" "t2" [] m1Demo (by decide)⟩

/-- C8: dry-run purity.  With `dry_run = True`, when the HTML guard
passes, the store performs no filesystem operation (the filesystem is
unchanged) yet still returns a manifest — the freshly built candidate
whenever no prior manifest with equal checksum exists. -/
theorem dry_run_purity :
    ∀ (H : Hashes) (raw_bytes : List Nat)
      (mime_type source_url run_id raw_dir parsed_dir : String) (now : String)
      (fs : FS) (em : String),
    _effective_mime mime_type raw_bytes = some em →
    (_save_artifact H raw_bytes mime_type source_url run_id raw_dir parsed_dir
        true now fs).2 = []
    ∧ applyOps fs ((_save_artifact H raw_bytes mime_type source_url run_id raw_dir
        parsed_dir true now fs).2) = fs
    ∧ ((_save_artifact H raw_bytes mime_type source_url run_id raw_dir parsed_dir
        true now fs).1).isSome = true
    ∧ (dedupHit fs (parsed_dir ++ "/"
          ++ _build_doc_key H (_derive_type_and_ext em).1 (_normalize_url source_url)
          ++ ".json") (_sha256_bytes H raw_bytes) = false →
        (_save_artifact H raw_bytes mime_type source_url run_id raw_dir parsed_dir
          true now fs).1
        = some (_build_manifest H raw_bytes (_derive_type_and_ext em).1
            (_derive_type_and_ext em).2
            (_build_doc_key H (_derive_type_and_ext em).1 (_normalize_url source_url))
            run_id source_url (_normalize_url source_url) em now)) := by
  intro H raw_bytes mime_type source_url run_id raw_dir parsed_dir now fs em hem
  simp only [_save_artifact, hem]
  cases hlu : fsLookup fs (parsed_dir ++ "/"
      ++ _build_doc_key H (_derive_type_and_ext em).1 (_normalize_url source_url)
      ++ ".json") with
  | none => exact ⟨rfl, rfl, rfl, fun _ => rfl⟩
  | some fd =>
    cases fd with
    | bytes b => exact ⟨rfl, rfl, rfl, fun _ => rfl⟩
    | manifestJson ex =>
      by_cases hcs : ex.checksum = _sha256_bytes H raw_bytes
      · simp only [_build_manifest, _sha256_bytes] at hcs ⊢
        rw [if_pos hcs]
        refine ⟨rfl, rfl, rfl, fun hmiss => ?_⟩
        rw [dedupHit, hlu] at hmiss
        simp [_sha256_bytes, hcs] at hmiss
      · simp only [_build_manifest, _sha256_bytes] at hcs ⊢
        rw [if_neg hcs]
        exact ⟨rfl, rfl, rfl, fun _ => rfl⟩

/-- Closed instance of dry-run purity on a fresh filesystem. -/
theorem dry_run_purity_witness :
    (_save_artifact Hdemo dbDemo "text/plain" urlDemo "r1" "a/raw" "a/parsed" true
      "t1" []).2 = []
    ∧ applyOps [] ((_save_artifact Hdemo dbDemo "text/plain" urlDemo "r1" "a/raw"
        "a/parsed" true "t1" []).2) = []
    ∧ ((_save_artifact Hdemo dbDemo "text/plain" urlDemo "r1" "a/raw" "a/parsed" true
        "t1" []).1).isSome = true
    ∧ (dedupHit [] ("a/parsed" ++ "/"
          ++ _build_doc_key Hdemo (_derive_type_and_ext "text/plain").1
            (_normalize_url urlDemo) ++ ".json") (_sha256_bytes Hdemo dbDemo) = false →
        (_save_artifact Hdemo dbDemo "text/plain" urlDemo "r1" "a/raw" "a/parsed" true
          "t1" []).1
        = some (_build_manifest Hdemo dbDemo (_derive_type_and_ext "text/plain").1
            (_derive_type_and_ext "text/plain").2
            (_build_doc_key Hdemo (_derive_type_and_ext "text/plain").1
              (_normalize_url urlDemo))
            "r1" urlDemo (_normalize_url urlDemo) "text/plain" "t1")) :=
  dry_run_purity Hdemo dbDemo "text/plain" urlDemo "r1" "a/raw" "a/parsed" "t1" []
    "text/plain" (by decide)

/-- C10: implicit MIME correction.  A declared html-family payload that
does not sniff as HTML is silently reclassified as `text/plain` before
classification: the fresh manifest the store returns carries
`source.mimeType = "text/plain"`, `type = "text"` and a `.txt` raw path;
and in general the effective MIME type the store hands to the classifier
is never html-family, so no store-built manifest gets its type through
the classifier's html-family branch. -/
theorem mime_correction :
    (∀ (H : Hashes) (raw_bytes : List Nat)
        (mime_type source_url run_id raw_dir parsed_dir : String)
        (dry_run : Bool) (now : String) (fs : FS),
      htmlFamily mime_type = true → _looks_like_html raw_bytes = false →
      dedupHit fs (parsed_dir ++ "/"
          ++ _build_doc_key H "text" (_normalize_url source_url) ++ ".json")
          (_sha256_bytes H raw_bytes) = false →
      (_save_artifact H raw_bytes mime_type source_url run_id raw_dir parsed_dir
          dry_run now fs).1
        = some (_build_manifest H raw_bytes "text" "txt"
            (_build_doc_key H "text" (_normalize_url source_url)) run_id source_url
            (_normalize_url source_url) "text/plain" now))
    ∧ (∀ (mime_type : String) (raw_bytes : List Nat) (em : String),
        _effective_mime mime_type raw_bytes = some em → htmlFamily em = false) := by
  constructor
  · intro H raw_bytes mime_type source_url run_id raw_dir parsed_dir dry_run now fs
      hf hl hmiss
    have hem : _effective_mime mime_type raw_bytes = some "text/plain" := by
      simp [_effective_mime, hf, hl]
    have hte : _derive_type_and_ext "text/plain" = ("text", "txt") := by decide
    simp only [_save_artifact, hem, hte]
    cases hlu : fsLookup fs (parsed_dir ++ "/"
        ++ _build_doc_key H "text" (_normalize_url source_url) ++ ".json") with
    | none => cases dry_run <;> rfl
    | some fd =>
      cases fd with
      | bytes b => cases dry_run <;> rfl
      | manifestJson ex =>
        have hne : ¬ ex.checksum = _sha256_bytes H raw_bytes := by
          intro hcs
          rw [dedupHit, hlu] at hmiss
          simp [hcs] at hmiss
        simp only [_build_manifest, _sha256_bytes] at hne ⊢
        rw [if_neg hne]
        cases dry_run <;> rfl
  · intro mime_type raw_bytes em h
    rw [_effective_mime] at h
    by_cases hf : htmlFamily mime_type = true
    · rw [if_pos hf] at h
      by_cases hl : _looks_like_html raw_bytes = true
      · simp [hl] at h
      · simp only [Bool.not_eq_true] at hl
        rw [hl] at h
        simp only [Bool.false_eq_true, if_false, Option.some.injEq] at h
        subst h
        decide
    · rw [if_neg hf] at h
      simp only [Option.some.injEq] at h
      subst h
      simpa using hf

/-- Closed instance of MIME correction: a plain-text payload declared as
parameterised `text/html` is stored as a `text/plain` text artifact. -/
theorem mime_correction_witness :
    (_save_artifact Hdemo dbDemo "text/html; charset=utf-8" "https://x/d" "r1" "a/raw"
        "a/parsed" false "t1" []).1
      = some (_build_manifest Hdemo dbDemo "text" "txt"
          (_build_doc_key Hdemo "text" (_normalize_url "https://x/d")) "r1" "https://x/d"
          (_normalize_url "https://x/d") "text/plain" "t1")
    ∧ htmlFamily "text/plain" = false :=
  ⟨mime_correction.1 Hdemo dbDemo "text/html; charset=utf-8" "https://x/d" "r1" "a/raw"
      "a/parsed" false "t1" [] (by decide) (by decide) (by decide),
   mime_correction.2 "text/html" dbDemo "text/plain" (by decide)⟩

/-- C7: normalization equivalence.  Two absolute URLs that differ only in
the percent-encoding of their query parameters — same scheme, netloc,
path, params and fragment, and the same ordered list of decoded query
key/value pairs — normalize to the same canonical string, hence get the
same artifact key and the same artifact file paths. -/
theorem normalize_url_equiv :
    ∀ (u1 u2 : String),
    (urlparse u1).scheme = (urlparse u2).scheme →
    (urlparse u1).netloc = (urlparse u2).netloc →
    (urlparse u1).path = (urlparse u2).path →
    (urlparse u1).params = (urlparse u2).params →
    (urlparse u1).fragment = (urlparse u2).fragment →
    parse_qsl (urlparse u1).query = parse_qsl (urlparse u2).query →
    _normalize_url u1 = _normalize_url u2
    ∧ (∀ (H : Hashes) (st : String),
        _build_doc_key H st (_normalize_url u1) = _build_doc_key H st (_normalize_url u2))
    ∧ (∀ (H : Hashes) (st d ext : String),
        d ++ "/" ++ _build_doc_key H st (_normalize_url u1) ++ "." ++ ext
        = d ++ "/" ++ _build_doc_key H st (_normalize_url u2) ++ "." ++ ext) := by
  intro u1 u2 h1 h2 h3 h4 h5 h6
  have hn : _normalize_url u1 = _normalize_url u2 := by
    simp only [_normalize_url]
    rw [h1, h2, h3, h4, h5, h6]
  refine ⟨hn, fun H st => by rw [hn], fun H st d ext => by rw [hn]⟩

/-- Closed instance of normalization equivalence: `a=b+c` and `a=b%20c`
differ only in query percent-encoding and produce the same canonical URL,
key and path. -/
theorem normalize_url_equiv_witness :
    _normalize_url "https://h/p?a=b+c&b=1" = _normalize_url "https://h/p?a=b%20c&b=1"
    ∧ _build_doc_key Hdemo "pdf" (_normalize_url "https://h/p?a=b+c&b=1")
      = _build_doc_key Hdemo "pdf" (_normalize_url "https://h/p?a=b%20c&b=1")
    ∧ ("a/raw" ++ "/" ++ _build_doc_key Hdemo "pdf" (_normalize_url "https://h/p?a=b+c&b=1")
        ++ "." ++ "pdf"
      = "a/raw" ++ "/" ++ _build_doc_key Hdemo "pdf" (_normalize_url "https://h/p?a=b%20c&b=1")
        ++ "." ++ "pdf") :=
  have h := normalize_url_equiv "https://h/p?a=b+c&b=1" "https://h/p?a=b%20c&b=1"
    (by decide) (by decide) (by decide) (by decide) (by decide) (by decide)
  ⟨h.1, h.2.1 Hdemo "pdf", h.2.2 Hdemo "pdf" "a/raw" "pdf"⟩

lemma runTasks_map_fst (env : Env) (H : Hashes) (rid rd pd : String) (dry : Bool)
    (now : String) :
    ∀ (ts : List (String × String)) (fs : FS),
    ((runTasks env H rid rd pd dry now ts fs).1).map Prod.fst = ts.map Prod.fst := by
  intro ts
  induction ts with
  | nil => intro fs; rfl
  | cons t rest ih =>
    intro fs
    cases t with
    | mk name url => simp [runTasks, ih]

lemma runTasks_getD (env : Env) (H : Hashes) (rid rd pd : String) (dry : Bool)
    (now : String) :
    ∀ (ts : List (String × String)) (fs : FS) (k : Nat), k < ts.length →
    ((runTasks env H rid rd pd dry now ts fs).1).getD k ("", .err "" "" "" "")
      = ((ts.getD k ("", "")).1,
        entryFor rid (ts.getD k ("", "")).1 (ts.getD k ("", "")).2
          ((runTask env H rid rd pd dry now (ts.getD k ("", "")).1
            (fsBeforeTask env H rid rd pd dry now ts fs k)).1)) := by
  intro ts
  induction ts with
  | nil => intro fs k hk; simp at hk
  | cons t rest ih =>
    intro fs k hk
    cases t with
    | mk name url =>
      cases k with
      | zero => simp [runTasks, fsBeforeTask]
      | succ k' =>
        have hk' : k' < rest.length := by simpa using hk
        simpa [runTasks, fsBeforeTask] using
          ih ((runTask env H rid rd pd dry now name fs).2.1) k' hk'

/-- C2: task-level failure isolation.  The run report always carries one
entry per task in the fixed order; a task whose handler (producer or any
of its fetches) raises gets the error record
`{name, runId, source: {url}, error}` built from its static reference URL
and the exception message, while every task whose handler succeeds gets
its populated success entry — each task's entry depends only on its own
handler's outcome on the state the previous tasks left. -/
theorem run_crawler_task_isolation :
    ∀ (env : Env) (H : Hashes) (artifacts_dir : String) (dry_run : Bool)
      (run_id : Option String) (started_at_id now : String) (fs : FS),
    (((run_crawler env H artifacts_dir dry_run run_id started_at_id now fs).1).map
        Prod.fst
      = ["call_schedule", "class_schedule", "session_schedule", "rating_list",
         "scholarship_list", "timetable_calendar"])
    ∧ (∀ k, k < 6 →
        (∀ e, (runTask env H (run_id.getD started_at_id) (artifacts_dir ++ "/raw")
              (artifacts_dir ++ "/parsed") dry_run now
              ((_build_parser_tasks env).getD k ("", "")).1
              (fsBeforeTask env H (run_id.getD started_at_id) (artifacts_dir ++ "/raw")
                (artifacts_dir ++ "/parsed") dry_run now (_build_parser_tasks env) fs k)).1
            = .error e →
          ((run_crawler env H artifacts_dir dry_run run_id started_at_id now fs).1).getD
              k ("", .err "" "" "" "")
            = (((_build_parser_tasks env).getD k ("", "")).1,
              .err ((_build_parser_tasks env).getD k ("", "")).1
                (run_id.getD started_at_id)
                ((_build_parser_tasks env).getD k ("", "")).2 e))
        ∧ (∀ d arts, (runTask env H (run_id.getD started_at_id)
              (artifacts_dir ++ "/raw") (artifacts_dir ++ "/parsed") dry_run now
              ((_build_parser_tasks env).getD k ("", "")).1
              (fsBeforeTask env H (run_id.getD started_at_id) (artifacts_dir ++ "/raw")
                (artifacts_dir ++ "/parsed") dry_run now (_build_parser_tasks env) fs k)).1
            = .ok (d, arts) →
          ((run_crawler env H artifacts_dir dry_run run_id started_at_id now fs).1).getD
              k ("", .err "" "" "" "")
            = (((_build_parser_tasks env).getD k ("", "")).1, .ok d arts))) := by
  intro env H artifacts_dir dry_run run_id started_at_id now fs
  constructor
  · simp only [run_crawler]
    rw [runTasks_map_fst]
    rfl
  · intro k hk
    have hlen : k < (_build_parser_tasks env).length := by
      simpa [_build_parser_tasks] using hk
    have hg := runTasks_getD env H (run_id.getD started_at_id) (artifacts_dir ++ "/raw")
      (artifacts_dir ++ "/parsed") dry_run now (_build_parser_tasks env) fs k hlen
    constructor
    · intro e he
      simp only [run_crawler]
      rw [hg, he]
      rfl
    · intro d arts he
      simp only [run_crawler]
      rw [hg, he]
      rfl

/-- Closed instance of run isolation: with the third producer raising
`boom` and all other handlers succeeding, the report still names all six
tasks and the third entry is exactly the error record. -/
theorem run_crawler_task_isolation_witness :
    ((run_crawler cenv Hdemo "a" false (some "r") "s" "t" []).1).map Prod.fst
      = ["call_schedule", "class_schedule", "session_schedule", "rating_list",
         "scholarship_list", "timetable_calendar"]
    ∧ ((run_crawler cenv Hdemo "a" false (some "r") "s" "t" []).1).getD 2
        ("", .err "" "" "" "")
      = ("session_schedule", .err "session_schedule" "r" "https://x/session" "boom") :=
  ⟨(run_crawler_task_isolation cenv Hdemo "a" false (some "r") "s" "t" []).1,
   by
    have h := ((run_crawler_task_isolation cenv Hdemo "a" false (some "r") "s" "t"
      []).2 2 (by decide)).1 "boom" (by rfl)
    simpa [_build_parser_tasks, cenv] using h⟩

/-- C3 (counterexample): in an environment where the `class_schedule`
producer returns two image URLs and the first fetch raises, the task's
report entry is the error record — the second file's manifest does not
appear — and the whole run performs no filesystem write at all, so the
remaining file of the task was not ingested. -/
theorem per_file_isolation_cex :
    ((run_crawler cenv3 Hdemo "a" false (some "r") "s" "t" []).1).getD 1
        ("", .err "" "" "" "")
      = ("class_schedule", .err "class_schedule" "r" "https://x/class" "net down")
    ∧ (run_crawler cenv3 Hdemo "a" false (some "r") "s" "t" []).2.2 = [] :=
  ⟨by decide, by decide⟩

/-- The fetch-and-save loop aborts at a failing file anywhere in the
list: after a prefix of successful fetches, a failing fetch ends the loop
with the error, keeping exactly the prefix's filesystem state and write
trace — the remaining files are never fetched. -/
lemma fetchSaveList_append_error (env : Env) (H : Hashes) (rid rd pd : String)
    (dry : Bool) (now : String) :
    ∀ (pre : List String) (fs : FS) (rest : List String) (u e : String)
      (ms : List Manifest) (fs1 : FS) (tr1 : List FsOp),
    fetchSaveList env H rid rd pd dry now pre fs = (.ok ms, fs1, tr1) →
    env.http_get u = .error e →
    fetchSaveList env H rid rd pd dry now (pre ++ u :: rest) fs = (.error e, fs1, tr1) := by
  intro pre
  induction pre with
  | nil =>
    intro fs rest u e ms fs1 tr1 hpre hget
    simp only [fetchSaveList] at hpre
    cases hpre
    simp [fetchSaveList, hget]
  | cons v pre' ih =>
    intro fs rest u e ms fs1 tr1 hpre hget
    rw [List.cons_append]
    simp only [fetchSaveList] at hpre ⊢
    cases hv : env.http_get v with
    | error e' =>
      rw [hv] at hpre
      simp at hpre
    | ok resp =>
      rw [hv] at hpre
      dsimp only at hpre ⊢
      rcases hfx : fetchSaveList env H rid rd pd dry now pre'
          (applyOps fs (_save_artifact H resp.content resp.contentType v rid rd pd
            dry now fs).2) with ⟨r1, rfs, rtr⟩
      rw [hfx] at hpre
      cases r1 with
      | error e1 => simp at hpre
      | ok ms' =>
        dsimp only at hpre
        injection hpre with h1 h23
        injection h23 with h2 h3
        have hih := ih (applyOps fs (_save_artifact H resp.content resp.contentType v
          rid rd pd dry now fs).2) rest u e ms' rfs rtr (by rw [hfx]) hget
        rw [hih]
        dsimp only
        rw [h2, h3]

/-- C3 (amended): there is no per-file `try` scope inside a task: for a
multi-file task, a file whose fetch raises — at any position in the
list — propagates the exception to the task boundary: the handler returns
the error, the files after the failing one are never fetched, the earlier
files' writes persist (the handler's filesystem and trace are exactly the
prefix's), and the task's report entry becomes the error record with no
surviving manifest. -/
theorem file_failure_aborts_task :
    ∀ (env : Env) (H : Hashes) (run_id raw_dir parsed_dir : String) (dry_run : Bool)
      (now : String) (fs : FS) (e : String) (pre rest : List String) (u : String)
      (ms : List Manifest) (fs1 : FS) (tr1 : List FsOp),
    fetchSaveList env H run_id raw_dir parsed_dir dry_run now pre fs = (.ok ms, fs1, tr1) →
    env.http_get u = .error e →
    fetchSaveList env H run_id raw_dir parsed_dir dry_run now (pre ++ u :: rest) fs
      = (.error e, fs1, tr1)
    ∧ (∀ (title page_url : String),
        env.class_schedule_produce = .ok (title, pre ++ u :: rest, page_url) →
        runTask env H run_id raw_dir parsed_dir dry_run now "class_schedule" fs
          = (.error e, fs1, tr1))
    ∧ (∀ (title page_url : String),
        env.session_schedule_produce = .ok (title, pre ++ u :: rest, page_url) →
        runTask env H run_id raw_dir parsed_dir dry_run now "session_schedule" fs
          = (.error e, fs1, tr1))
    ∧ (∀ (files : List (String × String)) (page_url : String),
        env.rating_list_produce = .ok (files, page_url) →
        files.map (fun fp => fp.2) = pre ++ u :: rest →
        runTask env H run_id raw_dir parsed_dir dry_run now "rating_list" fs
          = (.error e, fs1, tr1))
    ∧ (∀ (title : String) (files : List (String × String)) (page_url : String),
        env.timetable_calendar_produce = .ok (title, files, page_url) →
        files.map (fun fp => fp.2) = pre ++ u :: rest →
        runTask env H run_id raw_dir parsed_dir dry_run now "timetable_calendar" fs
          = (.error e, fs1, tr1))
    ∧ (∀ (name url : String),
        entryFor run_id name url (.error e) = .err name run_id url e) := by
  intro env H run_id raw_dir parsed_dir dry_run now fs e pre rest u ms fs1 tr1 hpre hget
  have habort := fetchSaveList_append_error env H run_id raw_dir parsed_dir dry_run now
    pre fs rest u e ms fs1 tr1 hpre hget
  refine ⟨habort, ?_, ?_, ?_, ?_, fun name url => rfl⟩
  · intro title page_url hp
    simp [runTask, hp, habort]
  · intro title page_url hp
    simp [runTask, hp, habort]
  · intro files page_url hp hmap
    simp [runTask, hp, hmap, habort]
  · intro title files page_url hp hmap
    simp [runTask, hp, hmap, habort]

/-- Closed instance of the task-abort behavior at a non-first file: in
`cenv4` the first image is fetched and written, the second fetch fails,
and the `class_schedule` handler returns the error while keeping the
first file's (nonempty) writes. -/
theorem file_failure_aborts_task_witness :
    runTask cenv4 Hdemo "r" "a/raw" "a/parsed" false "t" "class_schedule" []
      = (.error "net down", fs1Demo, tr1Demo)
    ∧ tr1Demo ≠ [] :=
  ⟨(file_failure_aborts_task cenv4 Hdemo "r" "a/raw" "a/parsed" false "t" []
      "net down" ["https://x/ok.png"] [] "https://x/bad.png" [mPng] fs1Demo tr1Demo
      (by rfl) (by rfl)).2.1 "T" "https://x/class" (by rfl),
   by decide⟩

end Crawler

